import Mathlib

/-!
Shallow embedding of the barcode-driven cart reconciliation engine of this
repository and proofs about it.

The embedded code:
* `erpnext.utils.BarcodeScanner` (src/erpnext/manufacturing/doctype/job_card/job_card.js,
  lines 835-1397): `process_scan`, `update_table`, `get_row_to_modify_on_scan`,
  `is_duplicate_serial_no`, the `set_*` field-write steps, the quantity dialog
  (`prepare_item_for_scan` primary action, `add_child_for_remaining_qty`) and
  `handle_warehouse_scan`.
* the POS controller's stock check (src/unnamed/part_002, lines 803-871):
  `check_stock_availability` and `get_available_stock` with its
  `item_stock_map` session cache.

Modelling conventions:
* JS numbers that carry quantities are modelled as `ℚ`; `flt` of a missing
  field is 0, as in frappe's `flt`.
* An optional string field is `Option String`; `none` stands for a field that
  is `undefined`/`null`. JS truthiness of such a field (`!x`) also treats the
  empty string as falsy, which `jsTruthy` reproduces.
* The scanner's configurable field names (`qty_field`, `uom_field`, ...) are
  instantiated at their defaults; each `frappe.meta.has_field(...)` probe
  becomes a boolean in `ScannerOpts`.
* Remote collaborators (the classify API, the stock availability API) are
  oracle parameters; the calls actually issued are recorded so that
  "performs a network call" is observable.
-/

namespace Erp

/-- JS truthiness of an optional string field: `undefined`, `null` and `""`
are falsy, every other string is truthy. -/
def jsTruthy : Option String → Bool
  | none => false
  | some s => !(s == "")

/-- JS `a || b` on optional string fields: `a` when truthy, else `b`. -/
def jsOr (a b : Option String) : Option String :=
  if jsTruthy a then a else b

/-- JS `==`/`===` between two optional string fields: two missing values are
equal, a missing value never equals a string, strings compare as strings. -/
def jsEq (a b : Option String) : Bool :=
  match a, b with
  | some x, some y => x == y
  | none, none => true
  | _, _ => false

/-- frappe's `flt` on a possibly missing numeric field: missing is 0. -/
def flt : Option ℚ → ℚ
  | none => 0
  | some q => q

/-- Does `needle` occur at the start of `hay`? (chars of JS strings). -/
def prefixMatch : List Char → List Char → Bool
  | [], _ => true
  | _ :: _, [] => false
  | a :: as, b :: bs => a == b && prefixMatch as bs

/-- JS `hay.includes(needle)`: does `needle` occur contiguously in `hay`? -/
def containsSub (needle : List Char) : List Char → Bool
  | [] => needle.isEmpty
  | b :: bs => prefixMatch needle (b :: bs) || containsSub needle bs

/-- JS `s.split("\n")` on the char list of a serial-number field. -/
def splitNl : List Char → List (List Char)
  | [] => [[]]
  | c :: cs =>
    if c = '\n' then [] :: splitNl cs
    else
      match splitNl cs with
      | [] => [[c]]
      | g :: gs => (c :: g) :: gs

/-- One child-table row of the order (`items` grid), with the fields the
scanner touches. `name` is the row's document id, `idx` its 1-based grid
position. Optional string fields are unset (`none`) on a freshly added row. -/
structure Row where
  name : Nat := 0
  idx : Nat := 0
  item_code : String := ""
  uom : Option String := none
  batch_no : Option String := none
  serial_no : Option String := none
  barcode : Option String := none
  warehouse : Option String := none
  qty : ℚ := 0
  max_qty : Option ℚ := none
  stock_qty : ℚ := 0
  conversion_factor : ℚ := 0
  received_qty : ℚ := 0
  has_item_scanned : Bool := false
  use_serial_batch_fields : Bool := false
  deriving Repr, DecidableEq

/-- The form document the scanner works on: the items table (entry order)
and the shared warehouse context `last_scanned_warehouse`. -/
structure FormDoc where
  items : List Row := []
  last_scanned_warehouse : Option String := none
  deriving Repr, DecidableEq

/-- The classify API's response for one scan (`r.message`): the fields
`update_table` destructures, plus `warehouse` for location-first scanning.
An absent response (no match / empty object) is modelled as `none` at the
call site. -/
structure ScanData where
  item_code : String := ""
  barcode : Option String := none
  batch_no : Option String := none
  serial_no : Option String := none
  uom : Option String := none
  warehouse : Option String := none
  default_warehouse : Option String := none
  has_batch_no : Bool := false
  has_serial_no : Bool := false
  deriving Repr, DecidableEq

/-- The scanner's construction-time configuration: policy flags from `opts`
and the `frappe.meta.has_field` probes for each configurable field name
(field names themselves fixed at their defaults). `max_qty_field` is true
when a max-quantity field name is configured at all; `has_max_qty_field`
when the child table also has that field. `warehouse_field` is true when
`get_warehouse_field()` resolves to a truthy field name. -/
structure ScannerOpts where
  dont_allow_new_row : Bool := false
  prompt_qty : Bool := false
  max_qty_field : Bool := false
  has_max_qty_field : Bool := false
  has_batch_no_field : Bool := true
  has_serial_no_field : Bool := true
  has_uom_field : Bool := true
  has_barcode_field : Bool := true
  has_stock_qty_field : Bool := false
  has_last_scanned_warehouse : Bool := false
  warehouse_field : Bool := true
  has_warehouse_field : Bool := true
  deriving Repr, DecidableEq

/-- The mutable state a scan runs against: the form document, the frappe
flags the scanner toggles, `frm.has_items` (cleared when the scanner adds a
row) and the `remaining_qty` carried from the dialog to the row split. -/
structure ScanState where
  doc : FormDoc := {}
  hide_serial_batch_dialog : Bool := false
  trigger_from_barcode_scanner : Bool := false
  has_items : Bool := false
  remaining_qty : ℚ := 0
  deriving Repr, DecidableEq

/-- In-place mutation of the row at index `i` (frappe rows are mutated
through their object reference; here rows are addressed by position). -/
def modifyRow : List Row → Nat → (Row → Row) → List Row
  | [], _, _ => []
  | r :: rs, 0, f => f r :: rs
  | r :: rs, i + 1, f => r :: modifyRow rs i f

/-- Index of the first list element satisfying `p`. -/
def firstIdx (p : Row → Bool) : List Row → Option Nat
  | [] => none
  | r :: rs => if p r then some 0 else (firstIdx p rs).map (· + 1)

def ScanState.setRow (st : ScanState) (i : Nat) (f : Row → Row) : ScanState :=
  { st with doc := { st.doc with items := modifyRow st.doc.items i f } }

/-- The `matching_row` closure of `get_row_to_modify_on_scan`, translated
conjunct for conjunct (job_card.js lines 1288-1308). -/
def matching_row (opts : ScannerOpts) (doc : FormDoc) (item_code : String)
    (batch_no uom default_warehouse : Option String) (row : Row) : Bool :=
  let is_batch_no_scan := jsTruthy batch_no && opts.has_batch_no_field
  let check_max_qty := opts.max_qty_field && opts.has_max_qty_field
  let has_wh :=
    opts.has_last_scanned_warehouse && opts.warehouse_field && opts.has_warehouse_field
  let warehouse :=
    if has_wh then jsOr doc.last_scanned_warehouse default_warehouse else none
  let item_match := row.item_code == item_code
  let batch_match := !(jsTruthy row.batch_no) || jsEq row.batch_no batch_no
  let uom_match := !(jsTruthy uom) || jsEq row.uom uom
  let qty_in_limit := decide (row.qty < flt row.max_qty)
  let item_scanned := row.has_item_scanned
  let warehouse_match :=
    if has_wh && jsTruthy warehouse && jsTruthy row.warehouse then
      jsEq row.warehouse warehouse
    else true
  item_match && uom_match && warehouse_match && !item_scanned &&
    (!is_batch_no_scan || batch_match) && (!check_max_qty || qty_in_limit)

/-- `get_row_to_modify_on_scan` (job_card.js lines 1274-1313): the first row
satisfying `matching_row`, else the first row with a falsy `item_code`
(`barcode` is accepted but unused, as in the source). -/
def get_row_to_modify_on_scan (opts : ScannerOpts) (doc : FormDoc) (item_code : String)
    (batch_no uom barcode default_warehouse : Option String) : Option Row :=
  (doc.items.find? (matching_row opts doc item_code batch_no uom default_warehouse)).orElse
    (fun _ => doc.items.find? (fun d => d.item_code == ""))

/-- The line predicate as claim C1 words it, clause by clause:
(1) item_code equality; (2) if the scan carries a batch and the table tracks
batch, the line's batch is unset or equals the scanned batch; (3) if the scan
carries a UOM, the line's UOM equals it; (4) if a max-quantity field is
configured for the collection, quantity is strictly below the cap; (5) the
has-scanned flag is false; (6) if warehouse context is active and both the
line and the context carry a warehouse, they are equal. -/
def claim_line_matches (opts : ScannerOpts) (doc : FormDoc) (item_code : String)
    (batch_no uom default_warehouse : Option String) (row : Row) : Bool :=
  (row.item_code == item_code) &&
  (!(jsTruthy batch_no && opts.has_batch_no_field) ||
    (!(jsTruthy row.batch_no) || jsEq row.batch_no batch_no)) &&
  (!(jsTruthy uom) || jsEq row.uom uom) &&
  (!(opts.max_qty_field && opts.has_max_qty_field) || decide (row.qty < flt row.max_qty)) &&
  (!row.has_item_scanned) &&
  (let active := opts.has_last_scanned_warehouse && opts.warehouse_field &&
      opts.has_warehouse_field
   let ctx := if active then jsOr doc.last_scanned_warehouse default_warehouse else none
   !(active && jsTruthy ctx && jsTruthy row.warehouse) || jsEq row.warehouse ctx)

/-- The kind of one observable effect of the scan pipeline, in the order the
`frappe.run_serially` task list of `update_table` names them. -/
inductive StepKind
  | selector_flag
  | uom_write
  | serial_write
  | batch_write
  | barcode_write
  | warehouse_write
  | qty_write
  | cleanup
  | flags_cleared
  deriving Repr, DecidableEq

/-- The typed failures `update_table` rejects with. -/
inductive ScanError
  | RowLimitExceeded
  | DuplicateSerial
  deriving Repr, DecidableEq

/-- Outcome of `update_table`: the promise resolves with the row (`ok`),
rejects (`err`), or stalls in the `prepare_item_for_scan` dialog whose
primary action carries on separately (`dialog_pending`). The effect log
collects the field writes performed, in order. -/
inductive UpdateResult
  | ok (st : ScanState) (rid : Nat) (events : List StepKind)
  | err (st : ScanState) (e : ScanError) (events : List StepKind)
  | dialog_pending (st : ScanState) (rid : Nat) (events : List StepKind)
  deriving Repr, DecidableEq

def UpdateResult.state : UpdateResult → ScanState
  | .ok st _ _ => st
  | .err st _ _ => st
  | .dialog_pending st _ _ => st

/-- `is_duplicate_serial_no` (lines 1265-1272): JS
`row[serial_no_field]?.includes(serial_no)` — substring containment of the
scanned serial in the row's newline-joined serial field. With no scanned
serial the JS `includes(undefined)` searches for the literal text
"undefined", which no serial field holds, so that case is `false`. -/
def is_duplicate_serial_no (row : Row) (serial_no : Option String) : Bool :=
  match row.serial_no, serial_no with
  | some existing, some s => containsSub s.data existing.data
  | _, _ => false

/-- `set_selector_trigger_flag` (lines 993-1002): suppress the serial/batch
selector dialog when the scan already carries everything it would ask for. -/
def set_selector_trigger_flag (data : ScanData) (st : ScanState) :
    ScanState × List StepKind :=
  let require_selecting_batch := data.has_batch_no && !(jsTruthy data.batch_no)
  let require_selecting_serial := data.has_serial_no && !(jsTruthy data.serial_no)
  if !(require_selecting_batch || require_selecting_serial) then
    ({ st with hide_serial_batch_dialog := true }, [.selector_flag])
  else (st, [])

/-- `set_barcode_uom` (lines 1226-1230). -/
def set_barcode_uom (opts : ScannerOpts) (rid : Nat) (uom : Option String)
    (st : ScanState) : ScanState × List StepKind :=
  if jsTruthy uom && opts.has_uom_field then
    (st.setRow rid (fun r => { r with uom := uom }), [.uom_write])
  else (st, [])

/-- `new_serial_nos` of `set_serial_no`: append to a truthy existing field
with a newline, else start the field with the scanned serial. -/
def appendSerial (existing : Option String) (s : String) : String :=
  match existing with
  | some ex => if ex == "" then s else ex ++ "\n" ++ s
  | none => s

/-- `set_serial_no` (lines 1212-1224). -/
def set_serial_no (opts : ScannerOpts) (rid : Nat) (serial_no : Option String)
    (st : ScanState) : ScanState × List StepKind :=
  if jsTruthy serial_no && opts.has_serial_no_field then
    (st.setRow rid (fun r =>
      { r with serial_no := some (appendSerial r.serial_no ((serial_no).getD "")) }),
     [.serial_write])
  else (st, [])

/-- `set_batch_no` (lines 1232-1236). -/
def set_batch_no (opts : ScannerOpts) (rid : Nat) (batch_no : Option String)
    (st : ScanState) : ScanState × List StepKind :=
  if jsTruthy batch_no && opts.has_batch_no_field then
    (st.setRow rid (fun r => { r with batch_no := batch_no }), [.batch_write])
  else (st, [])

/-- `set_barcode` (lines 1238-1242). -/
def set_barcode (opts : ScannerOpts) (rid : Nat) (barcode : Option String)
    (st : ScanState) : ScanState × List StepKind :=
  if jsTruthy barcode && opts.has_barcode_field then
    (st.setRow rid (fun r => { r with barcode := barcode }), [.barcode_write])
  else (st, [])

/-- `set_warehouse` (lines 1244-1254): write the session warehouse context
onto the row, when the parent tracks it, it is set, and the row has the
warehouse field. -/
def set_warehouse (opts : ScannerOpts) (rid : Nat) (st : ScanState) :
    ScanState × List StepKind :=
  if !opts.has_last_scanned_warehouse then (st, [])
  else if !(jsTruthy st.doc.last_scanned_warehouse) then (st, [])
  else if !(opts.warehouse_field && opts.has_warehouse_field) then (st, [])
  else
    (st.setRow rid (fun r => { r with warehouse := st.doc.last_scanned_warehouse }),
     [.warehouse_write])

/-- `set_item` (lines 1009-1029). `prompt_qty` increments by the operator's
typed quantity (modelled by `prompt_value`); with `frm.has_items` it opens
the `prepare_item_for_scan` dialog and its promise never resolves (the
returned quantity is `none`); otherwise it increments by 1. -/
def set_item (opts : ScannerOpts) (rid : Nat) (item_code : String)
    (prompt_value : ℚ) (st : ScanState) : ScanState × List StepKind × Option ℚ :=
  if opts.prompt_qty then
    (st.setRow rid (fun r =>
      { r with item_code := item_code, use_serial_batch_fields := true,
               qty := r.qty + prompt_value }),
     [.qty_write], some prompt_value)
  else if st.has_items then
    (st, [], none)
  else
    (st.setRow rid (fun r =>
      { r with item_code := item_code, use_serial_batch_fields := true,
               qty := r.qty + 1 }),
     [.qty_write], some 1)

/-- The `frappe.run_serially` task list of `update_table` (lines 973-987),
run after the duplicate-serial guard, against the resolved row `rid` whose
current value is `row`. `clean_up` only clears the scan input and refreshes
the grid, `revert_selector_flag` clears the two transient flags. -/
def update_table_row (opts : ScannerOpts) (st : ScanState) (data : ScanData)
    (prompt_value : ℚ) (row : Row) (rid : Nat) : UpdateResult :=
  if is_duplicate_serial_no row data.serial_no then .err st .DuplicateSerial []
  else
    let p1 := set_selector_trigger_flag data st
    let p2 := set_barcode_uom opts rid data.uom p1.1
    let p3 := set_serial_no opts rid data.serial_no p2.1
    let p4 := set_batch_no opts rid data.batch_no p3.1
    let p5 := set_barcode opts rid data.barcode p4.1
    let p6 := set_warehouse opts rid p5.1
    let p7 := set_item opts rid data.item_code prompt_value p6.1
    let evs := p1.2 ++ p2.2 ++ p3.2 ++ p4.2 ++ p5.2 ++ p6.2 ++ p7.2.1
    match p7.2.2 with
    | none => .dialog_pending p7.1 rid evs
    | some _ =>
      .ok { p7.1 with hide_serial_batch_dialog := false,
                      trigger_from_barcode_scanner := false }
        rid (evs ++ [.cleanup, .flags_cleared])

/-- The row `update_table` resolves, as an index: the first `matching_row`
index, else the first falsy-`item_code` index. -/
def get_row_idx_on_scan (opts : ScannerOpts) (doc : FormDoc) (item_code : String)
    (batch_no uom default_warehouse : Option String) : Option Nat :=
  (firstIdx (matching_row opts doc item_code batch_no uom default_warehouse)
      doc.items).orElse
    (fun _ => firstIdx (fun d => d.item_code == "") doc.items)

/-- `update_table` (lines 944-989): set the barcode-scanner flag, resolve the
row (appending a fresh child row unless `dont_allow_new_row` forbids it,
which also clears `frm.has_items`), reject duplicate serials, then run the
serial pipeline. -/
def update_table (opts : ScannerOpts) (st0 : ScanState) (data : ScanData)
    (prompt_value : ℚ) : UpdateResult :=
  let st := { st0 with trigger_from_barcode_scanner := true }
  match get_row_idx_on_scan opts st.doc data.item_code data.batch_no data.uom
      data.default_warehouse with
  | none =>
    if opts.dont_allow_new_row then .err st .RowLimitExceeded []
    else
      let rid := st.doc.items.length
      let fresh : Row := { name := rid, idx := rid + 1 }
      let st1 := { st with
        doc := { st.doc with items := st.doc.items ++ [fresh] },
        has_items := false }
      update_table_row opts st1 data prompt_value fresh rid
  | some rid =>
    match st.doc.items[rid]? with
    | some row => update_table_row opts st data prompt_value row rid
    | none => .err st .RowLimitExceeded []
      -- dead branch: `get_row_idx_on_scan` only yields indices of rows
      -- that exist (`firstIdx_lt` below)

/-- Outcome of `process_scan` for one input. -/
inductive ProcessOutcome
  | no_input
  | cannot_find
  | warehouse_set (w : Option String)
  | row (r : UpdateResult)
  deriving Repr, DecidableEq

/-- `process_scan` (lines 877-925): clear the input field; an empty (falsy)
input returns at once without calling the classify API; a missing/empty
response — or a warehouse response when the form does not track
`last_scanned_warehouse` — alerts and rejects; a warehouse response updates
the context (`handle_warehouse_scan`, lines 1342-1362) without touching the
items; anything else goes to `update_table`. The final `Bool` records
whether `scan_api_call` was issued. -/
def process_scan (opts : ScannerOpts) (st : ScanState) (input : String)
    (response : Option ScanData) (prompt_value : ℚ) :
    ScanState × ProcessOutcome × Bool :=
  if input == "" then (st, .no_input, false)
  else
    match response with
    | none => (st, .cannot_find, true)
    | some data =>
      if jsTruthy data.warehouse && !opts.has_last_scanned_warehouse then
        (st, .cannot_find, true)
      else if jsTruthy data.warehouse then
        ({ st with doc := { st.doc with last_scanned_warehouse := data.warehouse } },
         .warehouse_set data.warehouse, true)
      else
        let r := update_table opts st data prompt_value
        (r.state, .row r, true)

/-- The clone loop of `add_child_for_remaining_qty` (lines 1185-1201):
every field of `prev` is copied onto the fresh child row except the
`ignore_fields` `name`, `idx`, `batch_no`, `barcode`, `received_qty`,
`serial_no` and `has_item_scanned`, which keep the fresh row's values. -/
def copy_except_ignored (fresh prev : Row) : Row :=
  { fresh with
    item_code := prev.item_code
    uom := prev.uom
    warehouse := prev.warehouse
    qty := prev.qty
    max_qty := prev.max_qty
    stock_qty := prev.stock_qty
    conversion_factor := prev.conversion_factor
    use_serial_batch_fields := prev.use_serial_batch_fields }

/-- `add_child_for_remaining_qty` (lines 1180-1210): when a positive
remaining quantity is pending, append a sibling row cloned from `prev_rid`
minus the identity fields, carrying the remaining quantity (and, when the
table has `stock_qty`, its stock-UOM image). -/
def add_child_for_remaining_qty (opts : ScannerOpts) (st : ScanState)
    (prev_rid : Nat) : ScanState :=
  if 0 < st.remaining_qty then
    match st.doc.items[prev_rid]? with
    | some prev =>
      let rid := st.doc.items.length
      let fresh : Row := { name := rid, idx := rid + 1 }
      let row := copy_except_ignored fresh prev
      let row := { row with qty := st.remaining_qty }
      let row :=
        if opts.has_stock_qty_field then
          { row with stock_qty := st.remaining_qty * row.conversion_factor }
        else row
      { st with doc := { st.doc with items := st.doc.items ++ [row] } }
    | none => st
  else st

/-- The primary action of the `prepare_item_for_scan` dialog
(lines 1038-1056): write the confirmed scanned quantity and the scanned
flag onto the source row, remember `requested - scanned` as the remaining
quantity, write the dialog's batch/barcode/serial echoes, then split off
the remaining quantity into a sibling row. -/
def dialog_primary_action (opts : ScannerOpts) (st : ScanState) (rid : Nat)
    (item_code : String) (requested scanned : ℚ)
    (dlg_batch dlg_barcode dlg_serial : Option String) : ScanState :=
  let st1 := st.setRow rid (fun r =>
    { r with item_code := item_code, qty := scanned, has_item_scanned := true })
  let st2 := { st1 with remaining_qty := requested - scanned }
  let st3 := (set_batch_no opts rid dlg_batch st2).1
  let st4 := (set_barcode opts rid dlg_barcode st3).1
  let st5 := (set_serial_no opts rid dlg_serial st4).1
  add_child_for_remaining_qty opts st5 rid

/-- A POS invoice item row, with the fields `check_stock_availability`
reads (`item_code`, `stock_uom` for the message) and the id `clear_doc`
removes by. -/
structure PosRow where
  name : Nat := 0
  item_code : String := ""
  stock_uom : String := ""
  qty : ℚ := 0
  conversion_factor : ℚ := 1
  deriving Repr, DecidableEq

/-- The availability API's response triple
`[available_qty, is_stock_item, is_negative_stock_allowed]`. -/
structure StockResp where
  available_qty : ℚ := 0
  is_stock_item : Bool := false
  allow_negative_stock : Bool := false
  deriving Repr, DecidableEq

/-- Lookup in the nested `item_stock_map` object, flattened to an
association list keyed by `(item_code, warehouse)`. -/
def mapLookup (m : List ((String × String) × StockResp)) (k : String × String) :
    Option StockResp :=
  match m with
  | [] => none
  | (k1, v) :: rest => if k1 = k then some v else mapLookup rest k

/-- `item_stock_map[item_code][warehouse] = resp`: overwrite the pair's
entry, leaving every other pair's entry alone. -/
def mapInsert (m : List ((String × String) × StockResp)) (k : String × String)
    (v : StockResp) : List ((String × String) × StockResp) :=
  match m with
  | [] => [(k, v)]
  | (k1, v1) :: rest => if k1 = k then (k, v) :: rest else (k1, v1) :: mapInsert rest k v

/-- The POS controller's state: the invoice items, the session
`item_stock_map` cache and the log of availability calls actually sent to
the server. -/
structure PosState where
  items : List PosRow := []
  item_stock_map : List ((String × String) × StockResp) := []
  stock_queries : List (String × String) := []
  deriving Repr, DecidableEq

/-- `get_available_stock` (part_002 lines 858-871): always a `frappe.call`
to the availability endpoint — recorded in `stock_queries` — whose callback
stores the response in `item_stock_map`. The server is the oracle `svc`. -/
def get_available_stock (svc : String → String → StockResp) (st : PosState)
    (item_code warehouse : String) : PosState × StockResp :=
  let resp := svc item_code warehouse
  ({ st with
      stock_queries := st.stock_queries ++ [(item_code, warehouse)],
      item_stock_map := mapInsert st.item_stock_map (item_code, warehouse) resp },
   resp)

/-- How one availability check ends: `ok` returns normally, the two `throw`
outcomes surface as hard failures. -/
inductive StockOutcome
  | ok
  | out_of_stock
  | shortfall
  deriving Repr, DecidableEq

/-- `check_stock_availability` (part_002 lines 803-841): fetch the
availability (always a remote call), return at once when negative stock is
allowed; with no stock on hand, clear the row and throw for a stock item
but return normally for a non-stock item; with some stock but less than
needed, throw for a stock item without clearing the row. -/
def check_stock_availability (svc : String → String → StockResp) (st : PosState)
    (item_row : PosRow) (qty_needed : ℚ) (warehouse : String) :
    PosState × StockOutcome :=
  let fetched := get_available_stock svc st item_row.item_code warehouse
  let st1 := fetched.1
  let resp := fetched.2
  if resp.allow_negative_stock then (st1, .ok)
  else if !(decide (resp.available_qty > 0)) then
    if resp.is_stock_item then
      ({ st1 with items := st1.items.filter (fun r => !(r.name == item_row.name)) },
       .out_of_stock)
    else (st1, .ok)
  else if resp.is_stock_item && decide (resp.available_qty < qty_needed) then
    (st1, .shortfall)
  else (st1, .ok)

/-! ### List bookkeeping lemmas -/

theorem firstIdx_lt {p : Row → Bool} :
    ∀ {l : List Row} {i : Nat}, firstIdx p l = some i → i < l.length := by
  intro l
  induction l with
  | nil => intro i h; simp [firstIdx] at h
  | cons r rs ih =>
    intro i h
    simp only [List.length_cons]
    by_cases hp : p r
    · simp [firstIdx, hp] at h
      omega
    · simp [firstIdx, hp] at h
      obtain ⟨j, hj, rfl⟩ := h
      have := ih hj
      omega

theorem find?_eq_firstIdx (p : Row → Bool) :
    ∀ l : List Row, l.find? p = (firstIdx p l).bind fun i => l[i]? := by
  intro l
  induction l with
  | nil => rfl
  | cons r rs ih =>
    by_cases hp : p r
    · simp [List.find?_cons, hp, firstIdx]
    · simp only [List.find?_cons, hp, firstIdx, Bool.false_eq_true, if_false, ih]
      cases firstIdx p rs with
      | none => rfl
      | some i => simp

theorem modifyRow_length : ∀ (l : List Row) (i : Nat) (f : Row → Row),
    (modifyRow l i f).length = l.length := by
  intro l
  induction l with
  | nil => intro i f; rfl
  | cons r rs ih =>
    intro i f
    cases i with
    | zero => rfl
    | succ j => simp [modifyRow, ih]

theorem modifyRow_get_self : ∀ (l : List Row) (i : Nat) (f : Row → Row),
    (modifyRow l i f)[i]? = (l[i]?).map f := by
  intro l
  induction l with
  | nil => intro i f; simp [modifyRow]
  | cons r rs ih =>
    intro i f
    cases i with
    | zero => simp [modifyRow]
    | succ j => simp [modifyRow, ih]

theorem modifyRow_get_ne : ∀ (l : List Row) (i j : Nat) (f : Row → Row),
    i ≠ j → (modifyRow l i f)[j]? = l[j]? := by
  intro l
  induction l with
  | nil => intro i j f _; simp [modifyRow]
  | cons r rs ih =>
    intro i j f hij
    cases i with
    | zero =>
      cases j with
      | zero => exact absurd rfl hij
      | succ k => simp [modifyRow]
    | succ i1 =>
      cases j with
      | zero => simp [modifyRow]
      | succ k => simp [modifyRow, ih i1 k f (by omega)]

/-! ### Claim C1: the line matcher -/

theorem claim_line_matches_eq_matching_row (opts : ScannerOpts) (doc : FormDoc)
    (ic : String) (b u dw : Option String) :
    claim_line_matches opts doc ic b u dw = matching_row opts doc ic b u dw := by
  funext row
  simp only [claim_line_matches, matching_row]
  generalize (opts.has_last_scanned_warehouse && opts.warehouse_field &&
      opts.has_warehouse_field) = ac
  generalize (if ac then jsOr doc.last_scanned_warehouse dw else none) = w
  generalize (row.item_code == ic) = g1
  generalize jsTruthy b = g2
  generalize opts.has_batch_no_field = g3
  generalize jsTruthy row.batch_no = g4
  generalize jsEq row.batch_no b = g5
  generalize jsTruthy u = g6
  generalize jsEq row.uom u = g7
  generalize (opts.max_qty_field && opts.has_max_qty_field) = g8
  generalize decide (row.qty < flt row.max_qty) = g9
  generalize row.has_item_scanned = g10
  generalize jsTruthy w = g11
  generalize jsTruthy row.warehouse = g12
  generalize jsEq row.warehouse w = g13
  revert ac g1 g2 g3 g4 g5 g6 g7 g8 g9 g10 g11 g12 g13
  decide

/-- Claim C1. For every order and every item scan, `get_row_to_modify_on_scan`
returns the first line in entry order satisfying all six claim predicates
(item code, batch, UOM, max-quantity cap, has-scanned flag, warehouse
context); when no line satisfies them it returns the first line with an
empty `item_code`, and `none` ("append new line") when there is none.
In particular, given two lines with identical item/uom, one with an unset
batch and one with a batch different from the scanned batch, the scan
resolves to the unset-batch line regardless of their relative order. -/
theorem c1_line_matcher_first_match :
    (∀ (opts : ScannerOpts) (doc : FormDoc) (item_code : String)
        (batch_no uom barcode default_warehouse : Option String),
      get_row_to_modify_on_scan opts doc item_code batch_no uom barcode
          default_warehouse =
        ((doc.items.find?
            (claim_line_matches opts doc item_code batch_no uom default_warehouse)).orElse
          (fun _ => doc.items.find? (fun d => d.item_code == "")))) ∧
    (∀ (opts : ScannerOpts) (last dw : Option String) (ic b bMis : String)
        (r1 r2 : Row),
      opts.has_batch_no_field = true →
      opts.max_qty_field = false →
      opts.has_last_scanned_warehouse = false →
      r1.item_code = ic → r2.item_code = ic →
      r2.uom = r1.uom →
      r1.batch_no = some bMis → ¬bMis = "" → ¬bMis = b → ¬b = "" →
      r2.batch_no = none →
      r1.has_item_scanned = false → r2.has_item_scanned = false →
      ∀ docItems : List Row, docItems = [r1, r2] ∨ docItems = [r2, r1] →
        get_row_to_modify_on_scan opts
            { items := docItems, last_scanned_warehouse := last }
            ic (some b) r1.uom none dw = some r2) := by
  constructor
  · intro opts doc item_code batch_no uom barcode default_warehouse
    rw [get_row_to_modify_on_scan, claim_line_matches_eq_matching_row]
  · intro opts last dw ic b bMis r1 r2 hbf hmax hlsw h1 h2 huom hb1 hbne hbmis hbs
      hb2 hs1 hs2 docItems hitems
    have hr1 : matching_row opts { items := docItems, last_scanned_warehouse := last }
        ic (some b) r1.uom dw r1 = false := by
      simp [matching_row, hbf, hmax, hlsw, h1, hb1, hs1, jsTruthy, jsEq, hbne, hbmis, hbs]
    have hr2 : matching_row opts { items := docItems, last_scanned_warehouse := last }
        ic (some b) r1.uom dw r2 = true := by
      cases hu : r1.uom with
      | none =>
        simp [matching_row, hbf, hmax, hlsw, h2, hb2, hs2, huom, hu, jsTruthy, jsEq, hbs]
      | some s =>
        by_cases hse : s = "" <;>
          simp [matching_row, hbf, hmax, hlsw, h2, hb2, hs2, huom, hu, hse,
            jsTruthy, jsEq, hbs]
    rcases hitems with rfl | rfl <;>
      simp [get_row_to_modify_on_scan, List.find?_cons, hr1, hr2]

/-! ### Claim C2: the fixed field-write sequence -/

/-- The write order claim C2 states for `update_table`'s serial pipeline. -/
def pipelineOrder : List StepKind :=
  [.selector_flag, .uom_write, .serial_write, .batch_write, .barcode_write,
   .warehouse_write, .qty_write, .cleanup, .flags_cleared]

theorem set_selector_trigger_flag_events (data : ScanData) (st : ScanState) :
    (set_selector_trigger_flag data st).2.Sublist [StepKind.selector_flag] := by
  simp only [set_selector_trigger_flag]; split <;> simp

theorem set_barcode_uom_events (opts : ScannerOpts) (rid : Nat) (u : Option String)
    (st : ScanState) : (set_barcode_uom opts rid u st).2.Sublist [StepKind.uom_write] := by
  simp only [set_barcode_uom]; split <;> simp

theorem set_serial_no_events (opts : ScannerOpts) (rid : Nat) (s : Option String)
    (st : ScanState) : (set_serial_no opts rid s st).2.Sublist [StepKind.serial_write] := by
  simp only [set_serial_no]; split <;> simp

theorem set_batch_no_events (opts : ScannerOpts) (rid : Nat) (b : Option String)
    (st : ScanState) : (set_batch_no opts rid b st).2.Sublist [StepKind.batch_write] := by
  simp only [set_batch_no]; split <;> simp

theorem set_barcode_events (opts : ScannerOpts) (rid : Nat) (b : Option String)
    (st : ScanState) : (set_barcode opts rid b st).2.Sublist [StepKind.barcode_write] := by
  simp only [set_barcode]; split <;> simp

theorem set_warehouse_events (opts : ScannerOpts) (rid : Nat) (st : ScanState) :
    (set_warehouse opts rid st).2.Sublist [StepKind.warehouse_write] := by
  simp only [set_warehouse]
  split
  · simp
  · split
    · simp
    · split <;> simp

theorem setRow_has_items (st : ScanState) (i : Nat) (f : Row → Row) :
    (st.setRow i f).has_items = st.has_items := rfl

theorem set_selector_trigger_flag_has_items (data : ScanData) (st : ScanState) :
    (set_selector_trigger_flag data st).1.has_items = st.has_items := by
  simp only [set_selector_trigger_flag]; split <;> rfl

theorem set_barcode_uom_has_items (opts : ScannerOpts) (rid : Nat) (u : Option String)
    (st : ScanState) : (set_barcode_uom opts rid u st).1.has_items = st.has_items := by
  simp only [set_barcode_uom]; split <;> rfl

theorem set_serial_no_has_items (opts : ScannerOpts) (rid : Nat) (s : Option String)
    (st : ScanState) : (set_serial_no opts rid s st).1.has_items = st.has_items := by
  simp only [set_serial_no]; split <;> rfl

theorem set_batch_no_has_items (opts : ScannerOpts) (rid : Nat) (b : Option String)
    (st : ScanState) : (set_batch_no opts rid b st).1.has_items = st.has_items := by
  simp only [set_batch_no]; split <;> rfl

theorem set_barcode_has_items (opts : ScannerOpts) (rid : Nat) (b : Option String)
    (st : ScanState) : (set_barcode opts rid b st).1.has_items = st.has_items := by
  simp only [set_barcode]; split <;> rfl

theorem set_warehouse_has_items (opts : ScannerOpts) (rid : Nat) (st : ScanState) :
    (set_warehouse opts rid st).1.has_items = st.has_items := by
  simp only [set_warehouse]
  split
  · rfl
  · split
    · rfl
    · split <;> rfl

/-- The per-call behaviour of each successful `update_table_row`: its write log
is a subsequence of the claimed fixed order, ends with the transient-flag
clear, and contains the quantity write; a stalled dialog has written only a
prefix of the first six steps; a rejected scan has written nothing. -/
theorem update_table_row_events (opts : ScannerOpts) (st : ScanState) (data : ScanData)
    (v : ℚ) (row : Row) (rid : Nat) :
    match update_table_row opts st data v row rid with
    | .ok _ _ evs =>
        evs.Sublist pipelineOrder ∧ evs.getLast? = some .flags_cleared ∧ .qty_write ∈ evs
    | .dialog_pending _ _ evs => evs.Sublist pipelineOrder
    | .err _ _ evs => evs = [] := by
  have s1 := set_selector_trigger_flag_events data st
  have s2 := set_barcode_uom_events opts rid data.uom (set_selector_trigger_flag data st).1
  have s3 := set_serial_no_events opts rid data.serial_no
    (set_barcode_uom opts rid data.uom (set_selector_trigger_flag data st).1).1
  have s4 := set_batch_no_events opts rid data.batch_no
    (set_serial_no opts rid data.serial_no
      (set_barcode_uom opts rid data.uom (set_selector_trigger_flag data st).1).1).1
  have s5 := set_barcode_events opts rid data.barcode
    (set_batch_no opts rid data.batch_no
      (set_serial_no opts rid data.serial_no
        (set_barcode_uom opts rid data.uom
          (set_selector_trigger_flag data st).1).1).1).1
  have s6 := set_warehouse_events opts rid
    (set_barcode opts rid data.barcode
      (set_batch_no opts rid data.batch_no
        (set_serial_no opts rid data.serial_no
          (set_barcode_uom opts rid data.uom
            (set_selector_trigger_flag data st).1).1).1).1).1
  by_cases hdup : is_duplicate_serial_no row data.serial_no
  · simp [update_table_row, hdup]
  · by_cases hp : opts.prompt_qty
    · simp only [update_table_row, hdup, Bool.false_eq_true, if_false, set_item, hp,
        if_true, eq_self_iff_true]
      refine ⟨?_, ?_, ?_⟩
      · simp only [List.append_assoc]
        exact s1.append (s2.append (s3.append (s4.append (s5.append
          (s6.append (List.Sublist.refl _))))))
      · rw [show ∀ l : List StepKind, l ++ [StepKind.cleanup, StepKind.flags_cleared] =
            (l ++ [StepKind.cleanup]) ++ [StepKind.flags_cleared] by simp,
          List.getLast?_concat]
      · simp
    · have hhi : (set_warehouse opts rid
          (set_barcode opts rid data.barcode
            (set_batch_no opts rid data.batch_no
              (set_serial_no opts rid data.serial_no
                (set_barcode_uom opts rid data.uom
                  (set_selector_trigger_flag data st).1).1).1).1).1).1.has_items
          = st.has_items := by
        rw [set_warehouse_has_items, set_barcode_has_items, set_batch_no_has_items,
          set_serial_no_has_items, set_barcode_uom_has_items,
          set_selector_trigger_flag_has_items]
      by_cases hi : st.has_items
      · simp only [update_table_row, hdup, Bool.false_eq_true, if_false, set_item, hp,
          hhi, hi, if_true]
        simp only [List.append_nil, List.append_assoc]
        exact s1.append (s2.append (s3.append (s4.append (s5.append
          (s6.trans (List.sublist_append_left _ _))))))
      · simp only [update_table_row, hdup, Bool.false_eq_true, if_false, set_item, hp,
          hhi, hi, if_false]
        refine ⟨?_, ?_, ?_⟩
        · simp only [List.append_assoc]
          exact s1.append (s2.append (s3.append (s4.append (s5.append
            (s6.append (List.Sublist.refl _))))))
        · rw [show ∀ l : List StepKind, l ++ [StepKind.cleanup, StepKind.flags_cleared] =
              (l ++ [StepKind.cleanup]) ++ [StepKind.flags_cleared] by simp,
            List.getLast?_concat]
        · simp

/-- `update_table` either rejects with an empty write log, or hands over to
the serial pipeline `update_table_row`. -/
theorem update_table_cases (opts : ScannerOpts) (st : ScanState) (data : ScanData)
    (v : ℚ) :
    update_table opts st data v =
        .err { st with trigger_from_barcode_scanner := true } .RowLimitExceeded [] ∨
    ∃ st1 row rid, update_table opts st data v = update_table_row opts st1 data v row rid := by
  simp only [update_table]
  split
  · split
    · left; rfl
    · right; exact ⟨_, _, _, rfl⟩
  · split
    · right; exact ⟨_, _, _, rfl⟩
    · left; rfl

/-- Claim C2. For every scan that `update_table` completes, its field writes
happen in the fixed sequence: skip-selector flag, UOM, serial number, batch
number, barcode, warehouse from the session context, quantity, then the
transient-flag clear — the log is a subsequence of that order, the quantity
write occurs, and clearing the flags comes last. A scan parked in the
quantity dialog has performed a prefix of the first six writes only, and a
rejected scan has performed none. -/
theorem c2_fixed_write_sequence :
    ∀ (opts : ScannerOpts) (st : ScanState) (data : ScanData) (v : ℚ),
      match update_table opts st data v with
      | .ok _ _ evs =>
          evs.Sublist pipelineOrder ∧ evs.getLast? = some .flags_cleared ∧ .qty_write ∈ evs
      | .dialog_pending _ _ evs => evs.Sublist pipelineOrder
      | .err _ _ evs => evs = [] := by
  intro opts st data v
  rcases update_table_cases opts st data v with h | ⟨st1, row, rid, h⟩
  · rw [h]
  · rw [h]; exact update_table_row_events ..

/-! ### Claims C3 and C10: duplicate-serial rejection -/

theorem prefixMatch_self : ∀ l : List Char, prefixMatch l l = true := by
  intro l
  induction l with
  | nil => rfl
  | cons a as ih => simp [prefixMatch, ih]

theorem containsSub_refl : ∀ l : List Char, containsSub l l = true := by
  intro l
  cases l with
  | nil => rfl
  | cons a as => simp [containsSub, prefixMatch_self]

theorem containsSub_append_right : ∀ (t l : List Char), containsSub l (t ++ l) = true := by
  intro t l
  induction t with
  | nil => simpa using containsSub_refl l
  | cons c cs ih => simp [containsSub, ih]

/-- After the pipeline appends a scanned serial to a row's serial field, that
very serial is contained in the field again. -/
theorem containsSub_appendSerial (ex : Option String) (s : String) :
    containsSub s.data (appendSerial ex s).data = true := by
  match ex with
  | none => exact containsSub_refl _
  | some e =>
    by_cases he : e = ""
    · simp [appendSerial, he, containsSub_refl]
    · have : (e ++ "\n" ++ s).data = (e ++ "\n").data ++ s.data := by
        simp [String.data_append]
      simp only [appendSerial, he, beq_iff_eq, if_false, this]
      exact containsSub_append_right _ _

/-- `get_row_to_modify_on_scan` is the row at the index `update_table`
resolves (`get_row_idx_on_scan`). -/
theorem get_row_eq (opts : ScannerOpts) (doc : FormDoc) (ic : String)
    (b u bc dw : Option String) :
    get_row_to_modify_on_scan opts doc ic b u bc dw =
      (get_row_idx_on_scan opts doc ic b u dw).bind (fun i => doc.items[i]?) := by
  unfold get_row_to_modify_on_scan get_row_idx_on_scan
  rw [find?_eq_firstIdx, find?_eq_firstIdx]
  cases h1 : firstIdx (matching_row opts doc ic b u dw) doc.items with
  | some i =>
    have hi : i < doc.items.length := firstIdx_lt h1
    simp [Option.orElse, List.getElem?_eq_getElem hi]
  | none => simp [Option.orElse]

/-- Core of the duplicate-serial rejection: when the resolved row already
holds the scanned serial, `update_table` rejects with `DuplicateSerial`,
before any field write, leaving the document untouched. -/
theorem update_table_dup_core (opts : ScannerOpts) (st : ScanState) (data : ScanData)
    (v : ℚ) (row : Row)
    (hrow : get_row_to_modify_on_scan opts st.doc data.item_code data.batch_no
        data.uom data.barcode data.default_warehouse = some row)
    (hdup : is_duplicate_serial_no row data.serial_no = true) :
    update_table opts st data v =
      .err { st with trigger_from_barcode_scanner := true } .DuplicateSerial [] := by
  rw [get_row_eq] at hrow
  obtain ⟨rid, hidx, hget⟩ := Option.bind_eq_some.mp hrow
  simp only [update_table]
  rw [hidx]
  simp [hget, update_table_row, hdup]

/-- Claim C3. A scan whose serial already appears in the matched line's
serial field fails as `DuplicateSerial` with an empty write log — no field
of any line is modified, so in particular the line's serial list keeps its
length — and the failure is the typed, warning-surfaced rejection, not a
crash. Moreover (second scan of the same serial): once `set_serial_no` has
written a scanned serial onto a row, that row reports the same serial as a
duplicate, so an identical scan resolving to the same line always rejects. -/
theorem c3_duplicate_serial_rejected (opts : ScannerOpts) (st : ScanState)
    (data : ScanData) (v : ℚ) (row : Row)
    (hrow : get_row_to_modify_on_scan opts st.doc data.item_code data.batch_no
        data.uom data.barcode data.default_warehouse = some row)
    (hdup : is_duplicate_serial_no row data.serial_no = true) :
    (update_table opts st data v =
        .err { st with trigger_from_barcode_scanner := true } .DuplicateSerial []) ∧
    (update_table opts st data v).state.doc = st.doc ∧
    (∀ (opts2 : ScannerOpts) (st2 : ScanState) (rid : Nat) (s : String) (r : Row),
      opts2.has_serial_no_field = true → ¬s = "" →
      st2.doc.items[rid]? = some r →
      ((set_serial_no opts2 rid (some s) st2).1.doc.items[rid]?).map
        (fun r2 => is_duplicate_serial_no r2 (some s)) = some true) := by
  have hmain := update_table_dup_core opts st data v row hrow hdup
  refine ⟨hmain, by simp [hmain, UpdateResult.state], ?_⟩
  intro opts2 st2 rid s r hf hs hr
  simp [set_serial_no, jsTruthy, hf, hs, ScanState.setRow, modifyRow_get_self, hr,
    is_duplicate_serial_no, containsSub_appendSerial]

def w3row : Row := { item_code := "A", serial_no := some "S7" }

def w3st : ScanState := { doc := { items := [w3row] } }

def w3data : ScanData := { item_code := "A", serial_no := some "S7" }

theorem c3_witness :
    (update_table {} w3st w3data 1 =
        .err { w3st with trigger_from_barcode_scanner := true } .DuplicateSerial []) ∧
    (update_table {} w3st w3data 1).state.doc = w3st.doc ∧
    (∀ (opts2 : ScannerOpts) (st2 : ScanState) (rid : Nat) (s : String) (r : Row),
      opts2.has_serial_no_field = true → ¬s = "" →
      st2.doc.items[rid]? = some r →
      ((set_serial_no opts2 rid (some s) st2).1.doc.items[rid]?).map
        (fun r2 => is_duplicate_serial_no r2 (some s)) = some true) :=
  c3_duplicate_serial_rejected {} w3st w3data 1 w3row (by decide) (by decide)

/-- Claim C10 (implicit). The duplicate-serial guard tests substring
containment, not list membership: a scan whose serial occurs inside the
line's serial field — even when it is not one of the newline-separated
entries — is rejected as `DuplicateSerial` and the line is left unmutated. -/
theorem c10_substring_duplicate (opts : ScannerOpts) (st : ScanState)
    (data : ScanData) (v : ℚ) (row : Row) (s ex : String)
    (hrow : get_row_to_modify_on_scan opts st.doc data.item_code data.batch_no
        data.uom data.barcode data.default_warehouse = some row)
    (hser : data.serial_no = some s)
    (hex : row.serial_no = some ex)
    (hsub : containsSub s.data ex.data = true)
    (_hnot : ¬s.data ∈ splitNl ex.data) :
    update_table opts st data v =
        .err { st with trigger_from_barcode_scanner := true } .DuplicateSerial [] ∧
    (update_table opts st data v).state.doc = st.doc := by
  have hdup : is_duplicate_serial_no row data.serial_no = true := by
    simp [is_duplicate_serial_no, hser, hex, hsub]
  have hmain := update_table_dup_core opts st data v row hrow hdup
  exact ⟨hmain, by simp [hmain, UpdateResult.state]⟩

def w10row : Row := { item_code := "A", serial_no := some "S12" }

def w10st : ScanState := { doc := { items := [w10row] } }

def w10data : ScanData := { item_code := "A", serial_no := some "S1" }

theorem c10_witness :
    update_table {} w10st w10data 1 =
        .err { w10st with trigger_from_barcode_scanner := true } .DuplicateSerial [] ∧
    (update_table {} w10st w10data 1).state.doc = w10st.doc :=
  c10_substring_duplicate {} w10st w10data 1 w10row "S1" "S12" (by decide) rfl rfl
    (by decide) (by decide)

/-! ### Claim C6: the disallow-new-rows policy -/

theorem get_row_idx_lt (opts : ScannerOpts) (doc : FormDoc) (ic : String)
    (b u dw : Option String) (i : Nat)
    (h : get_row_idx_on_scan opts doc ic b u dw = some i) : i < doc.items.length := by
  unfold get_row_idx_on_scan at h
  cases h1 : firstIdx (matching_row opts doc ic b u dw) doc.items with
  | some j =>
    rw [h1] at h
    simp [Option.orElse] at h
    exact h ▸ firstIdx_lt h1
  | none =>
    rw [h1] at h
    simp [Option.orElse] at h
    exact firstIdx_lt h

/-- Claim C6. When the matcher yields no line at all (no predicate match and
no empty-item-code placeholder) and the disallow-new-rows policy is active,
`update_table` fails with `RowLimitExceeded` before any write: no order line
is created or modified, so the order's line count is unchanged. (The witness
instantiates the claim's scenario: the only line for the scanned item sits
at its max-quantity cap.) -/
theorem c6_row_limit (opts : ScannerOpts) (st : ScanState) (data : ScanData) (v : ℚ)
    (hnone : get_row_to_modify_on_scan opts st.doc data.item_code data.batch_no
        data.uom data.barcode data.default_warehouse = none)
    (hpolicy : opts.dont_allow_new_row = true) :
    update_table opts st data v =
        .err { st with trigger_from_barcode_scanner := true } .RowLimitExceeded [] ∧
    (update_table opts st data v).state.doc.items = st.doc.items ∧
    (update_table opts st data v).state.doc.items.length = st.doc.items.length := by
  have hidx : get_row_idx_on_scan opts st.doc data.item_code data.batch_no data.uom
      data.default_warehouse = none := by
    rw [get_row_eq] at hnone
    cases h : get_row_idx_on_scan opts st.doc data.item_code data.batch_no data.uom
        data.default_warehouse with
    | none => rfl
    | some i =>
      rw [h] at hnone
      simp only [Option.some_bind] at hnone
      have := get_row_idx_lt opts st.doc data.item_code data.batch_no data.uom
        data.default_warehouse i h
      rw [List.getElem?_eq_getElem this] at hnone
      exact absurd hnone (by simp)
  have hmain : update_table opts st data v =
      .err { st with trigger_from_barcode_scanner := true } .RowLimitExceeded [] := by
    simp only [update_table]
    rw [hidx]
    simp [hpolicy]
  exact ⟨hmain, by simp [hmain, UpdateResult.state], by simp [hmain, UpdateResult.state]⟩

def w6opts : ScannerOpts :=
  { dont_allow_new_row := true, max_qty_field := true, has_max_qty_field := true }

def w6row : Row := { item_code := "B", qty := 4, max_qty := some 4 }

def w6st : ScanState := { doc := { items := [w6row] } }

def w6data : ScanData := { item_code := "B" }

theorem c6_witness :
    update_table w6opts w6st w6data 1 =
        .err { w6st with trigger_from_barcode_scanner := true } .RowLimitExceeded [] ∧
    (update_table w6opts w6st w6data 1).state.doc.items = w6st.doc.items ∧
    (update_table w6opts w6st w6data 1).state.doc.items.length =
      w6st.doc.items.length :=
  c6_row_limit w6opts w6st w6data 1 (by decide) rfl

/-! ### Claim C4: the partial-quantity row split -/

theorem getElem?_append_lt (l1 l2 : List Row) (i : Nat) (h : i < l1.length) :
    (l1 ++ l2)[i]? = l1[i]? := by
  induction l1 generalizing i with
  | nil => simp at h
  | cons x xs ih =>
    cases i with
    | zero => simp
    | succ j => simpa using ih j (by simpa using h)

theorem getElem?_append_length (l : List Row) (a : Row) :
    (l ++ [a])[l.length]? = some a := by
  induction l with
  | nil => rfl
  | cons x xs ih => simpa using ih

/-- The geometry and the clone-relevant fields of the row at `rid` that the
dialog's batch/barcode/serial echo writes leave alone. -/
def cloneFieldsPreserved (stOld stNew : ScanState) (rid : Nat) : Prop :=
  stNew.doc.items.length = stOld.doc.items.length ∧
  stNew.remaining_qty = stOld.remaining_qty ∧
  (stNew.doc.items[rid]?).map Row.item_code = (stOld.doc.items[rid]?).map Row.item_code ∧
  (stNew.doc.items[rid]?).map Row.uom = (stOld.doc.items[rid]?).map Row.uom ∧
  (stNew.doc.items[rid]?).map Row.warehouse = (stOld.doc.items[rid]?).map Row.warehouse ∧
  (stNew.doc.items[rid]?).map Row.qty = (stOld.doc.items[rid]?).map Row.qty ∧
  (stNew.doc.items[rid]?).map Row.conversion_factor =
    (stOld.doc.items[rid]?).map Row.conversion_factor

theorem cloneFieldsPreserved_trans {a b c : ScanState} {rid : Nat}
    (h1 : cloneFieldsPreserved a b rid) (h2 : cloneFieldsPreserved b c rid) :
    cloneFieldsPreserved a c rid := by
  obtain ⟨x1, x2, x3, x4, x5, x6, x7⟩ := h1
  obtain ⟨y1, y2, y3, y4, y5, y6, y7⟩ := h2
  exact ⟨y1.trans x1, y2.trans x2, y3.trans x3, y4.trans x4, y5.trans x5,
    y6.trans x6, y7.trans x7⟩

theorem set_batch_no_cloneFields (opts : ScannerOpts) (rid : Nat) (b : Option String)
    (st : ScanState) : cloneFieldsPreserved st (set_batch_no opts rid b st).1 rid := by
  unfold cloneFieldsPreserved set_batch_no
  split
  · simp only [ScanState.setRow, modifyRow_length, modifyRow_get_self]
    cases st.doc.items[rid]? <;> simp
  · simp

theorem set_barcode_cloneFields (opts : ScannerOpts) (rid : Nat) (b : Option String)
    (st : ScanState) : cloneFieldsPreserved st (set_barcode opts rid b st).1 rid := by
  unfold cloneFieldsPreserved set_barcode
  split
  · simp only [ScanState.setRow, modifyRow_length, modifyRow_get_self]
    cases st.doc.items[rid]? <;> simp
  · simp

theorem set_serial_no_cloneFields (opts : ScannerOpts) (rid : Nat) (s : Option String)
    (st : ScanState) : cloneFieldsPreserved st (set_serial_no opts rid s st).1 rid := by
  unfold cloneFieldsPreserved set_serial_no
  split
  · simp only [ScanState.setRow, modifyRow_length, modifyRow_get_self]
    cases st.doc.items[rid]? <;> simp
  · simp

/-- What `add_child_for_remaining_qty` appends when a positive remaining
quantity is pending: one sibling row carrying the remaining quantity, none
of the source's batch/barcode/serial/received/scanned identity, and the
source's item, UOM, warehouse and conversion factor. -/
theorem add_child_spec (opts : ScannerOpts) (st : ScanState) (rid : Nat) (prev : Row)
    (hprev : st.doc.items[rid]? = some prev) (hpos : 0 < st.remaining_qty) :
    ∃ sib : Row,
      (add_child_for_remaining_qty opts st rid).doc.items = st.doc.items ++ [sib] ∧
      sib.qty = st.remaining_qty ∧ sib.batch_no = none ∧ sib.barcode = none ∧
      sib.serial_no = none ∧ sib.received_qty = 0 ∧ sib.has_item_scanned = false ∧
      sib.item_code = prev.item_code ∧ sib.uom = prev.uom ∧
      sib.warehouse = prev.warehouse ∧ sib.conversion_factor = prev.conversion_factor := by
  unfold add_child_for_remaining_qty
  rw [if_pos hpos, hprev]
  by_cases hsf : opts.has_stock_qty_field
  · simp only [hsf, if_true]
    refine ⟨_, rfl, ?_, ?_, ?_, ?_, ?_, ?_, ?_, ?_, ?_, ?_⟩ <;>
      simp [copy_except_ignored]
  · rw [Bool.not_eq_true] at hsf
    simp only [hsf, Bool.false_eq_true, if_false]
    refine ⟨_, rfl, ?_, ?_, ?_, ?_, ?_, ?_, ?_, ?_, ?_, ?_⟩ <;>
      simp [copy_except_ignored]

/-- Claim C4. Confirming a scanned quantity `c` strictly below the requested
quantity `q` in the prompt dialog leaves exactly one more line than before:
the source line's quantity becomes `c`, one sibling line is appended with
quantity `q - c`, the two quantities sum to `q`, and the sibling carries no
batch number, barcode, serial numbers, received quantity or has-item-scanned
flag from the source while inheriting its item, UOM, warehouse and
conversion factor. -/
theorem c4_partial_qty_split (opts : ScannerOpts) (st : ScanState) (rid : Nat)
    (item_code : String) (q c : ℚ) (dlg_batch dlg_barcode dlg_serial : Option String)
    (hrid : rid < st.doc.items.length) (hlt : c < q) :
    ∃ src sib : Row,
      (dialog_primary_action opts st rid item_code q c dlg_batch dlg_barcode
          dlg_serial).doc.items.length = st.doc.items.length + 1 ∧
      (dialog_primary_action opts st rid item_code q c dlg_batch dlg_barcode
          dlg_serial).doc.items[rid]? = some src ∧
      (dialog_primary_action opts st rid item_code q c dlg_batch dlg_barcode
          dlg_serial).doc.items[st.doc.items.length]? = some sib ∧
      src.qty = c ∧ sib.qty = q - c ∧ src.qty + sib.qty = q ∧
      sib.batch_no = none ∧ sib.barcode = none ∧ sib.serial_no = none ∧
      sib.received_qty = 0 ∧ sib.has_item_scanned = false ∧
      sib.item_code = item_code ∧
      (st.doc.items[rid]?).map Row.uom = some sib.uom ∧
      (st.doc.items[rid]?).map Row.warehouse = some sib.warehouse ∧
      (st.doc.items[rid]?).map Row.conversion_factor = some sib.conversion_factor := by
  obtain ⟨r0, hr0⟩ : ∃ r0, st.doc.items[rid]? = some r0 :=
    ⟨_, List.getElem?_eq_getElem hrid⟩
  have hda : dialog_primary_action opts st rid item_code q c dlg_batch dlg_barcode
      dlg_serial =
      add_child_for_remaining_qty opts
        ((set_serial_no opts rid dlg_serial
          ((set_barcode opts rid dlg_barcode
            ((set_batch_no opts rid dlg_batch
              { st.setRow rid (fun r =>
                  { r with item_code := item_code, qty := c,
                           has_item_scanned := true }) with
                remaining_qty := q - c }).1)).1)).1) rid := rfl
  set st2 : ScanState :=
    { st.setRow rid (fun r =>
        { r with item_code := item_code, qty := c, has_item_scanned := true }) with
      remaining_qty := q - c } with hst2
  set st5 : ScanState :=
    (set_serial_no opts rid dlg_serial
      ((set_barcode opts rid dlg_barcode
        ((set_batch_no opts rid dlg_batch st2).1)).1)).1 with hst5
  have hchain : cloneFieldsPreserved st2 st5 rid :=
    cloneFieldsPreserved_trans (set_batch_no_cloneFields opts rid dlg_batch st2)
      (cloneFieldsPreserved_trans
        (set_barcode_cloneFields opts rid dlg_barcode _)
        (set_serial_no_cloneFields opts rid dlg_serial _))
  have h2get : st2.doc.items[rid]? =
      some { r0 with item_code := item_code, qty := c, has_item_scanned := true } := by
    simp [hst2, ScanState.setRow, modifyRow_get_self, hr0]
  have h2len : st2.doc.items.length = st.doc.items.length := by
    simp [hst2, ScanState.setRow, modifyRow_length]
  obtain ⟨hlen5, hrem5, hic5, huom5, hwh5, hqty5, hcf5⟩ := hchain
  have hlen5s : st5.doc.items.length = st.doc.items.length := hlen5.trans h2len
  have hrem5s : st5.remaining_qty = q - c := by rw [hrem5]
  have hrid5 : rid < st5.doc.items.length := by rw [hlen5s]; exact hrid
  obtain ⟨prev, hprev⟩ : ∃ p, st5.doc.items[rid]? = some p :=
    ⟨_, List.getElem?_eq_getElem hrid5⟩
  rw [hprev, h2get] at hic5 huom5 hwh5 hqty5 hcf5
  simp only [Option.map_some'] at hic5 huom5 hwh5 hqty5 hcf5
  have hpic : prev.item_code = item_code := by simpa using Option.some.inj hic5
  have hpq : prev.qty = c := by simpa using Option.some.inj hqty5
  have hpu : prev.uom = r0.uom := by simpa using Option.some.inj huom5
  have hpw : prev.warehouse = r0.warehouse := by simpa using Option.some.inj hwh5
  have hpc : prev.conversion_factor = r0.conversion_factor := by
    simpa using Option.some.inj hcf5
  have hpos : 0 < st5.remaining_qty := by rw [hrem5s]; exact sub_pos.mpr hlt
  obtain ⟨sib, hitems, hsq, hsb, hsbar, hsser, hsrec, hsflag, hsic, hsu, hsw, hsc⟩ :=
    add_child_spec opts st5 rid prev hprev hpos
  refine ⟨prev, sib, ?_, ?_, ?_, hpq, ?_, ?_, hsb, hsbar, hsser, hsrec, hsflag, ?_,
    ?_, ?_, ?_⟩
  · rw [hda, hitems]; simp [hlen5s]
  · rw [hda, hitems, getElem?_append_lt _ _ _ hrid5]; exact hprev
  · rw [hda, hitems, ← hlen5s]; exact getElem?_append_length _ _
  · rw [hsq, hrem5s]
  · rw [hpq, hsq, hrem5s]; ring
  · rw [hsic, hpic]
  · rw [hr0, hsu, hpu]; rfl
  · rw [hr0, hsw, hpw]; rfl
  · rw [hr0, hsc, hpc]; rfl

def w4row : Row :=
  { item_code := "A", uom := some "Kg", warehouse := some "W1",
    conversion_factor := 2, qty := 5 }

def w4st : ScanState := { doc := { items := [w4row] } }

theorem c4_witness :
    ∃ src sib : Row,
      (dialog_primary_action {} w4st 0 "A" 5 2 (some "L1") none
          (some "SS")).doc.items.length = w4st.doc.items.length + 1 ∧
      (dialog_primary_action {} w4st 0 "A" 5 2 (some "L1") none
          (some "SS")).doc.items[0]? = some src ∧
      (dialog_primary_action {} w4st 0 "A" 5 2 (some "L1") none
          (some "SS")).doc.items[w4st.doc.items.length]? = some sib ∧
      src.qty = 2 ∧ sib.qty = 5 - 2 ∧ src.qty + sib.qty = 5 ∧
      sib.batch_no = none ∧ sib.barcode = none ∧ sib.serial_no = none ∧
      sib.received_qty = 0 ∧ sib.has_item_scanned = false ∧
      sib.item_code = "A" ∧
      (w4st.doc.items[0]?).map Row.uom = some sib.uom ∧
      (w4st.doc.items[0]?).map Row.warehouse = some sib.warehouse ∧
      (w4st.doc.items[0]?).map Row.conversion_factor = some sib.conversion_factor :=
  c4_partial_qty_split {} w4st 0 "A" 5 2 (some "L1") none (some "SS") (by decide)
    (by norm_num)

/-! ### Claim C7: warehouse-context scans -/

theorem firstIdx_sound {p : Row → Bool} :
    ∀ {l : List Row} {i : Nat} {x : Row},
      firstIdx p l = some i → l[i]? = some x → p x = true := by
  intro l
  induction l with
  | nil => intro i x h _; simp [firstIdx] at h
  | cons r rs ih =>
    intro i x h hx
    by_cases hp : p r
    · simp [firstIdx, hp] at h
      rw [← h] at hx
      simp at hx
      rw [← hx]; exact hp
    · simp [firstIdx, hp] at h
      obtain ⟨j, hj, rfl⟩ := h
      exact ih hj (by simpa using hx)

theorem jsEq_eq {a b : Option String} (ha : jsTruthy a = true)
    (hb : jsTruthy b = true) (h : jsEq a b = true) : a = b := by
  cases a with
  | none => simp [jsTruthy] at ha
  | some x =>
    cases b with
    | none => simp [jsTruthy] at hb
    | some y => simp [jsEq] at h; rw [h]

/-- Geometry the frame steps leave alone: length of the items table, the
warehouse context, and every row's warehouse field. -/
def warehouseFramePreserved (stOld stNew : ScanState) : Prop :=
  stNew.doc.items.length = stOld.doc.items.length ∧
  stNew.doc.last_scanned_warehouse = stOld.doc.last_scanned_warehouse ∧
  ∀ i : Nat, (stNew.doc.items[i]?).map Row.warehouse = (stOld.doc.items[i]?).map Row.warehouse

theorem warehouseFramePreserved_refl (st : ScanState) : warehouseFramePreserved st st :=
  ⟨rfl, rfl, fun _ => rfl⟩

theorem warehouseFramePreserved_trans {a b c : ScanState}
    (h1 : warehouseFramePreserved a b) (h2 : warehouseFramePreserved b c) :
    warehouseFramePreserved a c :=
  ⟨h2.1.trans h1.1, h2.2.1.trans h1.2.1, fun i => (h2.2.2 i).trans (h1.2.2 i)⟩

theorem setRow_whFrame (st : ScanState) (rid : Nat) (f : Row → Row)
    (hf : ∀ r, (f r).warehouse = r.warehouse) :
    warehouseFramePreserved st (st.setRow rid f) := by
  refine ⟨by simp [ScanState.setRow, modifyRow_length], rfl, ?_⟩
  intro i
  by_cases hi : rid = i
  · subst hi
    simp only [ScanState.setRow, modifyRow_get_self]
    cases st.doc.items[rid]? <;> simp [hf]
  · simp [ScanState.setRow, modifyRow_get_ne _ _ _ _ hi]

theorem set_selector_trigger_flag_whFrame (data : ScanData) (st : ScanState) :
    warehouseFramePreserved st (set_selector_trigger_flag data st).1 := by
  simp only [set_selector_trigger_flag]
  split
  · exact ⟨rfl, rfl, fun _ => rfl⟩
  · exact warehouseFramePreserved_refl st

theorem set_barcode_uom_whFrame (opts : ScannerOpts) (rid : Nat) (u : Option String)
    (st : ScanState) : warehouseFramePreserved st (set_barcode_uom opts rid u st).1 := by
  simp only [set_barcode_uom]
  split
  · exact setRow_whFrame st rid _ (fun r => rfl)
  · exact warehouseFramePreserved_refl st

theorem set_serial_no_whFrame (opts : ScannerOpts) (rid : Nat) (s : Option String)
    (st : ScanState) : warehouseFramePreserved st (set_serial_no opts rid s st).1 := by
  simp only [set_serial_no]
  split
  · exact setRow_whFrame st rid _ (fun r => rfl)
  · exact warehouseFramePreserved_refl st

theorem set_batch_no_whFrame (opts : ScannerOpts) (rid : Nat) (b : Option String)
    (st : ScanState) : warehouseFramePreserved st (set_batch_no opts rid b st).1 := by
  simp only [set_batch_no]
  split
  · exact setRow_whFrame st rid _ (fun r => rfl)
  · exact warehouseFramePreserved_refl st

theorem set_barcode_whFrame (opts : ScannerOpts) (rid : Nat) (b : Option String)
    (st : ScanState) : warehouseFramePreserved st (set_barcode opts rid b st).1 := by
  simp only [set_barcode]
  split
  · exact setRow_whFrame st rid _ (fun r => rfl)
  · exact warehouseFramePreserved_refl st

theorem set_item_whFrame (opts : ScannerOpts) (rid : Nat) (ic : String) (v : ℚ)
    (st : ScanState) : warehouseFramePreserved st (set_item opts rid ic v st).1 := by
  simp only [set_item]
  split
  · exact setRow_whFrame st rid _ (fun r => rfl)
  · split
    · exact warehouseFramePreserved_refl st
    · exact setRow_whFrame st rid _ (fun r => rfl)

/-- When the warehouse context is configured and set, `set_warehouse` writes
it onto the target row (leaving geometry and the context itself alone). -/
theorem set_warehouse_writes (opts : ScannerOpts) (rid : Nat) (st : ScanState)
    (h1 : opts.has_last_scanned_warehouse = true)
    (h3 : opts.warehouse_field = true) (h4 : opts.has_warehouse_field = true)
    (h2 : jsTruthy st.doc.last_scanned_warehouse = true)
    (hrid : rid < st.doc.items.length) :
    ((set_warehouse opts rid st).1.doc.items[rid]?).map Row.warehouse =
        some st.doc.last_scanned_warehouse ∧
    (set_warehouse opts rid st).1.doc.items.length = st.doc.items.length ∧
    (set_warehouse opts rid st).1.doc.last_scanned_warehouse =
      st.doc.last_scanned_warehouse := by
  simp only [set_warehouse, h1, h2, h3, h4, Bool.not_true, Bool.and_self,
    Bool.false_eq_true, if_false]
  refine ⟨?_, by simp [ScanState.setRow, modifyRow_length], rfl⟩
  simp only [ScanState.setRow, modifyRow_get_self]
  rw [List.getElem?_eq_getElem hrid]
  simp

/-- A completed `update_table_row` call resolves the row it was given and
ends in the state the six-step pipeline produces (with the transient flags
cleared, which leaves the document alone). -/
theorem update_table_row_ok_doc (opts : ScannerOpts) (st : ScanState) (data : ScanData)
    (v : ℚ) (row : Row) (rid : Nat) (st9 : ScanState) (rid9 : Nat) (evs : List StepKind)
    (hok : update_table_row opts st data v row rid = .ok st9 rid9 evs) :
    rid9 = rid ∧
    st9.doc = (set_item opts rid data.item_code v
      ((set_warehouse opts rid
        ((set_barcode opts rid data.barcode
          ((set_batch_no opts rid data.batch_no
            ((set_serial_no opts rid data.serial_no
              ((set_barcode_uom opts rid data.uom
                ((set_selector_trigger_flag data st).1)).1)).1)).1)).1)).1)).1.doc := by
  by_cases hdup : is_duplicate_serial_no row data.serial_no
  · simp [update_table_row, hdup] at hok
  · have hhi : (set_warehouse opts rid
        ((set_barcode opts rid data.barcode
          ((set_batch_no opts rid data.batch_no
            ((set_serial_no opts rid data.serial_no
              ((set_barcode_uom opts rid data.uom
                ((set_selector_trigger_flag data st).1)).1)).1)).1)).1)).1.has_items
        = st.has_items := by
      rw [set_warehouse_has_items, set_barcode_has_items, set_batch_no_has_items,
        set_serial_no_has_items, set_barcode_uom_has_items,
        set_selector_trigger_flag_has_items]
    by_cases hp : opts.prompt_qty
    · simp only [update_table_row, hdup, Bool.false_eq_true, if_false, set_item, hp,
        if_true, UpdateResult.ok.injEq] at hok
      obtain ⟨hst, hrid9, _⟩ := hok
      refine ⟨hrid9.symm, ?_⟩
      rw [← hst]
      simp [set_item, hp]
    · by_cases hi : st.has_items
      · simp only [update_table_row, hdup, Bool.false_eq_true, if_false, set_item, hp,
          hhi, hi, if_true] at hok
        simp at hok
      · simp only [update_table_row, hdup, Bool.false_eq_true, if_false, set_item, hp,
          hhi, hi, if_false, UpdateResult.ok.injEq] at hok
        obtain ⟨hst, hrid9, _⟩ := hok
        refine ⟨hrid9.symm, ?_⟩
        rw [← hst]
        simp [set_item, hp, hhi, hi]

/-- A completed `update_table_row` call, with the warehouse context
configured and set, leaves the target row carrying that warehouse. -/
theorem update_table_row_warehouse (opts : ScannerOpts) (st : ScanState)
    (data : ScanData) (v : ℚ) (row : Row) (rid : Nat) (st9 : ScanState) (rid9 : Nat)
    (evs : List StepKind)
    (h1 : opts.has_last_scanned_warehouse = true)
    (h3 : opts.warehouse_field = true) (h4 : opts.has_warehouse_field = true)
    (h2 : jsTruthy st.doc.last_scanned_warehouse = true)
    (hrid : rid < st.doc.items.length)
    (hok : update_table_row opts st data v row rid = .ok st9 rid9 evs) :
    (st9.doc.items[rid9]?).map Row.warehouse = some st.doc.last_scanned_warehouse := by
  obtain ⟨hrid9, hdoc⟩ := update_table_row_ok_doc opts st data v row rid st9 rid9 evs hok
  rw [hrid9, hdoc]
  have fE : warehouseFramePreserved st
      ((set_barcode opts rid data.barcode
        ((set_batch_no opts rid data.batch_no
          ((set_serial_no opts rid data.serial_no
            ((set_barcode_uom opts rid data.uom
              ((set_selector_trigger_flag data st).1)).1)).1)).1)).1) :=
    warehouseFramePreserved_trans (set_selector_trigger_flag_whFrame data st)
      (warehouseFramePreserved_trans (set_barcode_uom_whFrame opts rid data.uom _)
        (warehouseFramePreserved_trans (set_serial_no_whFrame opts rid data.serial_no _)
          (warehouseFramePreserved_trans (set_batch_no_whFrame opts rid data.batch_no _)
            (set_barcode_whFrame opts rid data.barcode _))))
  obtain ⟨hlenE, hlastE, _⟩ := fE
  have h2E : jsTruthy ((set_barcode opts rid data.barcode
      ((set_batch_no opts rid data.batch_no
        ((set_serial_no opts rid data.serial_no
          ((set_barcode_uom opts rid data.uom
            ((set_selector_trigger_flag data st).1)).1)).1)).1)).1).doc.last_scanned_warehouse
      = true := by rw [hlastE]; exact h2
  have hridE : rid < ((set_barcode opts rid data.barcode
      ((set_batch_no opts rid data.batch_no
        ((set_serial_no opts rid data.serial_no
          ((set_barcode_uom opts rid data.uom
            ((set_selector_trigger_flag data st).1)).1)).1)).1)).1).doc.items.length := by
    rw [hlenE]; exact hrid
  obtain ⟨hW, _, hWlast⟩ := set_warehouse_writes opts rid _ h1 h3 h4 h2E hridE
  obtain ⟨_, _, hImap⟩ := set_item_whFrame opts rid data.item_code v
    ((set_warehouse opts rid
      ((set_barcode opts rid data.barcode
        ((set_batch_no opts rid data.batch_no
          ((set_serial_no opts rid data.serial_no
            ((set_barcode_uom opts rid data.uom
              ((set_selector_trigger_flag data st).1)).1)).1)).1)).1)).1)
  rw [hImap rid, hW, hlastE]

/-- Claim C7. A scan classified as a warehouse never reaches the matching or
mutating phases: `process_scan` only rewrites `last_scanned_warehouse` on the
document and completes, leaving the items untouched. Afterwards every
completed item scan's target line carries the context warehouse, and a line
the matcher's predicates select that already carries a truthy warehouse
necessarily carries exactly the context warehouse (so the write changes
nothing on it: lines warehoused under a different, earlier context are never
selected by the predicates). -/
theorem c7_warehouse_context :
    (∀ (opts : ScannerOpts) (st : ScanState) (input : String) (data : ScanData) (v : ℚ),
      ¬input = "" → opts.has_last_scanned_warehouse = true →
      jsTruthy data.warehouse = true →
      process_scan opts st input (some data) v =
        ({ st with doc := { st.doc with last_scanned_warehouse := data.warehouse } },
         .warehouse_set data.warehouse, true) ∧
      (process_scan opts st input (some data) v).1.doc.items = st.doc.items) ∧
    (∀ (opts : ScannerOpts) (st : ScanState) (data : ScanData) (v : ℚ)
        (st9 : ScanState) (rid : Nat) (evs : List StepKind),
      opts.has_last_scanned_warehouse = true → opts.warehouse_field = true →
      opts.has_warehouse_field = true →
      jsTruthy st.doc.last_scanned_warehouse = true →
      update_table opts st data v = .ok st9 rid evs →
      (st9.doc.items[rid]?).map Row.warehouse = some st.doc.last_scanned_warehouse) ∧
    (∀ (opts : ScannerOpts) (doc : FormDoc) (ic : String) (b u dw : Option String)
        (rid : Nat) (r : Row),
      opts.has_last_scanned_warehouse = true → opts.warehouse_field = true →
      opts.has_warehouse_field = true →
      jsTruthy doc.last_scanned_warehouse = true →
      firstIdx (matching_row opts doc ic b u dw) doc.items = some rid →
      doc.items[rid]? = some r → jsTruthy r.warehouse = true →
      r.warehouse = doc.last_scanned_warehouse) := by
  refine ⟨?_, ?_, ?_⟩
  · intro opts st input data v hne h1 hw
    have hinp : (input == "") = false := by simp [hne]
    constructor
    · simp [process_scan, hinp, hw, h1]
    · simp [process_scan, hinp, hw, h1]
  · intro opts st data v st9 rid evs h1 h3 h4 h2 hok
    simp only [update_table] at hok
    split at hok
    · split at hok
      · simp at hok
      · have hh := update_table_row_warehouse _ _ _ _ _ _ _ _ _ h1 h3 h4 (by exact h2)
          (by simp) hok
        exact hh
    · rename_i rid1 heq
      split at hok
      · rename_i row heq2
        have hlt := get_row_idx_lt opts st.doc data.item_code data.batch_no data.uom
          data.default_warehouse rid1 heq
        have hh := update_table_row_warehouse _ _ _ _ _ _ _ _ _ h1 h3 h4 (by exact h2)
          (by exact hlt) hok
        exact hh
      · simp at hok
  · intro opts doc ic b u dw rid r h1 h3 h4 h2 hfi hr hwr
    have hmatch : matching_row opts doc ic b u dw r = true := firstIdx_sound hfi hr
    simp only [matching_row, h1, h3, h4, h2, hwr, jsOr, Bool.and_self, Bool.true_and,
      Bool.and_true, if_true, Bool.and_eq_true] at hmatch
    obtain ⟨⟨⟨⟨⟨-, -⟩, hjseq⟩, -⟩, -⟩, -⟩ := hmatch
    exact jsEq_eq hwr h2 hjseq

/-! ### Claim C9: empty scan input -/

/-- Claim C9 (amended). Only the empty scan input short-circuits: for it,
`process_scan` returns immediately with no classification call and the state
untouched. Every non-empty input — including whitespace-only text, which JS
treats as truthy — is sent to the classification service. -/
theorem c9_empty_input_short_circuit :
    (∀ (opts : ScannerOpts) (st : ScanState) (response : Option ScanData) (v : ℚ),
      process_scan opts st "" response v = (st, .no_input, false)) ∧
    (∀ (opts : ScannerOpts) (st : ScanState) (input : String)
        (response : Option ScanData) (v : ℚ),
      ¬input = "" → (process_scan opts st input response v).2.2 = true) := by
  constructor
  · intro opts st response v
    rfl
  · intro opts st input response v hne
    have hinp : (input == "") = false := by simp [hne]
    simp only [process_scan, hinp, Bool.false_eq_true, if_false]
    cases response with
    | none => rfl
    | some data =>
      by_cases hw : jsTruthy data.warehouse
      · by_cases hh : opts.has_last_scanned_warehouse <;> simp [hw, hh]
      · simp [hw]

def c9data : ScanData := { item_code := "X" }

/-- Claim C9 counterexample: the whitespace-only input `" "` is not
short-circuited — `process_scan` calls the classification service, and with
an item response the order's line set changes. -/
theorem c9_counterexample :
    " ".data.all (fun ch => ch.isWhitespace) = true ∧ ¬" " = "" ∧
    (process_scan {} {} " " (some c9data) 1).2.2 = true ∧
    (({} : ScanState)).doc.items.length = 0 ∧
    (process_scan {} {} " " (some c9data) 1).1.doc.items.length = 1 := by
  refine ⟨by decide, by decide, rfl, rfl, by decide⟩

/-! ### Claim C5: the stock-availability gate -/

/-- Claim C5. With negative stock disallowed by the availability response:
an out-of-stock item (`available_qty ≤ 0`) hard-fails and the checked line
is removed from the invoice (rollback); a non-stock item passes regardless
of availability; a stock item with some stock but less than the needed
quantity hard-fails as a shortfall without removing the line; and when
negative stock is allowed system-wide the check passes with no line
touched. -/
theorem c5_stock_availability_policy :
    ∀ (svc : String → String → StockResp) (st : PosState) (row : PosRow)
      (qty_needed : ℚ) (wh : String),
      ((svc row.item_code wh).allow_negative_stock = true →
        (check_stock_availability svc st row qty_needed wh).2 = .ok ∧
        (check_stock_availability svc st row qty_needed wh).1.items = st.items) ∧
      ((svc row.item_code wh).allow_negative_stock = false →
        (svc row.item_code wh).is_stock_item = true →
        (svc row.item_code wh).available_qty ≤ 0 →
        (check_stock_availability svc st row qty_needed wh).2 = .out_of_stock ∧
        (check_stock_availability svc st row qty_needed wh).1.items =
          st.items.filter (fun r => !(r.name == row.name))) ∧
      ((svc row.item_code wh).is_stock_item = false →
        (check_stock_availability svc st row qty_needed wh).2 = .ok ∧
        (check_stock_availability svc st row qty_needed wh).1.items = st.items) ∧
      ((svc row.item_code wh).allow_negative_stock = false →
        (svc row.item_code wh).is_stock_item = true →
        0 < (svc row.item_code wh).available_qty →
        (svc row.item_code wh).available_qty < qty_needed →
        (check_stock_availability svc st row qty_needed wh).2 = .shortfall ∧
        (check_stock_availability svc st row qty_needed wh).1.items = st.items) := by
  intro svc st row qty_needed wh
  refine ⟨?_, ?_, ?_, ?_⟩
  · intro hneg
    constructor <;> simp [check_stock_availability, get_available_stock, hneg]
  · intro hneg hstock havail
    have hng : ¬((svc row.item_code wh).available_qty > 0) := not_lt.mpr havail
    constructor <;>
      simp [check_stock_availability, get_available_stock, hneg, hstock, hng]
  · intro hstock
    by_cases hneg : (svc row.item_code wh).allow_negative_stock
    · constructor <;> simp [check_stock_availability, get_available_stock, hneg]
    · by_cases hpos : (svc row.item_code wh).available_qty > 0
      · constructor <;>
          simp [check_stock_availability, get_available_stock, hneg, hstock, hpos]
      · constructor <;>
          simp [check_stock_availability, get_available_stock, hneg, hstock, hpos]
  · intro hneg hstock hpos hlt
    constructor <;>
      simp [check_stock_availability, get_available_stock, hneg, hstock, hpos, hlt]

/-! ### Claim C8: availability checks always re-query -/

theorem mapLookup_insert_self (m : List ((String × String) × StockResp))
    (k : String × String) (v : StockResp) : mapLookup (mapInsert m k v) k = some v := by
  induction m with
  | nil => simp [mapInsert, mapLookup]
  | cons p rest ih =>
    obtain ⟨k1, v1⟩ := p
    by_cases h : k1 = k <;> simp [mapInsert, mapLookup, h, ih]

theorem mapLookup_insert_ne (m : List ((String × String) × StockResp))
    (k k2 : String × String) (v : StockResp) (h : ¬k2 = k) :
    mapLookup (mapInsert m k v) k2 = mapLookup m k2 := by
  have h2 : ¬k = k2 := fun e => h e.symm
  induction m with
  | nil => simp [mapInsert, mapLookup, h2]
  | cons p rest ih =>
    obtain ⟨k1, v1⟩ := p
    by_cases h1 : k1 = k
    · subst h1
      simp [mapInsert, mapLookup, h2]
    · by_cases h3 : k1 = k2 <;> simp [mapInsert, mapLookup, h1, h3, h, ih]

/-- Every availability check sends exactly one remote query and overwrites
(only) its own pair's cache entry — whatever branch the policy takes. -/
theorem check_stock_availability_state (svc : String → String → StockResp)
    (st : PosState) (row : PosRow) (q : ℚ) (wh : String) :
    (check_stock_availability svc st row q wh).1.stock_queries =
        st.stock_queries ++ [(row.item_code, wh)] ∧
    (check_stock_availability svc st row q wh).1.item_stock_map =
      mapInsert st.item_stock_map (row.item_code, wh) (svc row.item_code wh) := by
  simp only [check_stock_availability, get_available_stock]
  split_ifs <;> simp

/-- Claim C8 (amended). Availability checks are not served from the session
cache: every check — also a repeated check for the same (item_code,
warehouse) pair — performs its own remote query, and then overwrites that
pair's snapshot in the cache. Entries are never invalidated automatically:
a check leaves every other pair's entry exactly as it was, and the only way
an entry changes is being overwritten by a new query for its own pair. -/
theorem c8_no_cache_reuse :
    ∀ (svc : String → String → StockResp) (st : PosState) (row : PosRow)
      (qty_needed : ℚ) (wh : String),
      (check_stock_availability svc st row qty_needed wh).1.stock_queries =
        st.stock_queries ++ [(row.item_code, wh)] ∧
      mapLookup (check_stock_availability svc st row qty_needed wh).1.item_stock_map
          (row.item_code, wh) = some (svc row.item_code wh) ∧
      (∀ k : String × String, ¬k = (row.item_code, wh) →
        mapLookup (check_stock_availability svc st row qty_needed wh).1.item_stock_map
            k =
          mapLookup st.item_stock_map k) := by
  intro svc st row qty_needed wh
  obtain ⟨hq, hm⟩ := check_stock_availability_state svc st row qty_needed wh
  refine ⟨hq, ?_, ?_⟩
  · rw [hm]; exact mapLookup_insert_self _ _ _
  · intro k hk
    rw [hm]; exact mapLookup_insert_ne _ _ _ _ hk

def c8svc : String → String → StockResp :=
  fun _ _ => { available_qty := 5, is_stock_item := true }

def c8row : PosRow := { name := 1, item_code := "A", stock_uom := "Nos" }

/-- Claim C8 counterexample: two successive availability checks for the same
(item_code, warehouse) pair within one session issue two remote queries —
the second check does not reuse the cached snapshot. -/
theorem c8_counterexample :
    (check_stock_availability c8svc
        (check_stock_availability c8svc {} c8row 1 "W").1 c8row 1 "W").1.stock_queries =
      [("A", "W"), ("A", "W")] := by decide

end Erp
